import Mathlib

/-!
Shallow embedding of the prop_trade decision and risk engine.

Sources modelled:
* `src/score_calculator.py` — `ScoreCalculator` (zone scoring, scanning, best zone)
* `src/core/signal_generator.py` — `SignalGenerator` (correlation check, signal pipeline)
* `src/position_manager.py` — `PositionManager` (exhaustion detection, per-tick monitoring)
* `src/risk_controller.py` — `RiskController` (daily and lifetime risk gating)

Prices, balances, volumes and spreads are modelled as exact rationals.
External collaborators (the MT5 terminal, database and clock) are passed in as
explicit inputs: the database answer for the average historical volume is an
optional function of the price level, the `np.random.uniform(0, DOM_MAX * 0.4)`
draw used when the database is absent is an explicit argument, and wall-clock
times are rational-number parameters.
-/

/- The core rational-number operations are marked irreducible, which blocks the
`decide` tactic from evaluating concrete instances; re-allow unfolding them for
this file.  (The kernel is unaffected by reducibility attributes.) -/
attribute [local semireducible] Rat.mul Rat.add Rat.sub Rat.inv Rat.ofScientific

namespace PropTrade

/-- Python's `lst[-n:]`: the last `n` elements of a list. -/
def lastN (n : Nat) (l : List α) : List α := l.drop (l.length - n)

/-- `np.mean` over a rational list (only applied to nonempty lists by the code). -/
def mean (l : List ℚ) : ℚ := l.sum / (l.length : ℚ)

/-- Python's `max` over a nonempty list (0 for the empty list, never used there). -/
def listMax : List ℚ → ℚ
  | [] => 0
  | x :: xs => xs.foldl max x

/-- Python's `min` over a nonempty list (0 for the empty list, never used there). -/
def listMin : List ℚ → ℚ
  | [] => 0
  | x :: xs => xs.foldl min x

/-- Python's built-in `round` on an exact rational: round half to even. -/
def pyRound (x : ℚ) : ℤ :=
  let f := ⌊x⌋
  let frac := x - (f : ℚ)
  if frac < 1/2 then f
  else if frac > 1/2 then f + 1
  else if f % 2 = 0 then f else f + 1

namespace Score

/-- The fields of `MarketData` (src/core/data_collector.py) consumed by the scorer. -/
structure MarketData where
  bid : ℚ
  vwap : ℚ
  bid_ask_delta : ℚ
  fib_levels : List (String × ℚ)
deriving DecidableEq

/-- Configuration surface of `ScoreCalculator.__init__` (src/score_calculator.py). -/
structure Cfg where
  VWAP_MAX : ℚ
  ROUND_MAX : ℚ
  FIB_MAX : ℚ
  DOM_MAX : ℚ
  DELTA_MAX : ℚ
  DOM_THRESHOLD : ℚ
  DELTA_THRESHOLD : ℚ
  FIB_PROXIMITY_PIPS : ℚ
  ENTRY_OFFSET_PIPS : ℚ
  STOP_LOSS_PIPS : ℚ
  pip_value : ℚ
deriving DecidableEq

/-- The default configuration values from `ScoreCalculator.__init__`. -/
def defaultCfg : Cfg :=
  { VWAP_MAX := 30, ROUND_MAX := 25, FIB_MAX := 20, DOM_MAX := 15, DELTA_MAX := 10
    DOM_THRESHOLD := 1500, DELTA_THRESHOLD := 8000, FIB_PROXIMITY_PIPS := 5
    ENTRY_OFFSET_PIPS := 7, STOP_LOSS_PIPS := 10, pip_value := 1/10000 }

/-- `ScoreCalculator._calculate_vwap_score`: piecewise-linear score of the relative
distance between the level and the VWAP, over hard-coded bands 0.001/0.002/0.003. -/
def vwapScore (cfg : Cfg) (price_level vwap : ℚ) : ℚ :=
  if vwap = 0 then 0
  else
    let distance_pct := |price_level - vwap| / vwap
    if distance_pct ≥ 0.003 then cfg.VWAP_MAX
    else if distance_pct ≥ 0.002 then
      cfg.VWAP_MAX * 0.5 + cfg.VWAP_MAX * 0.5 * ((distance_pct - 0.002) / (0.003 - 0.002))
    else if distance_pct ≥ 0.001 then
      cfg.VWAP_MAX * 0.17 + cfg.VWAP_MAX * 0.33 * ((distance_pct - 0.001) / (0.002 - 0.001))
    else (distance_pct / 0.001) * (cfg.VWAP_MAX * 0.17)

/-- `ScoreCalculator._calculate_round_number_score`: score by the last two digits of
the pip-integer representation, with a proximity bonus near 50-pip levels. -/
def roundNumberScore (cfg : Cfg) (price_level : ℚ) : ℚ × String :=
  let pips_value : ℤ := pyRound (price_level / cfg.pip_value)
  let last_two := pips_value % 100
  if last_two = 0 then (cfg.ROUND_MAX, "MAJOR_ROUND")
  else if last_two = 50 then (cfg.ROUND_MAX * 0.72, "HALF_ROUND")
  else if last_two = 25 ∨ last_two = 75 then (cfg.ROUND_MAX * 0.40, "QUARTER_ROUND")
  else if last_two % 10 = 0 then (cfg.ROUND_MAX * 0.20, "10PIP_LEVEL")
  else
    let nearest_round : ℚ := (pyRound (price_level / 0.005) : ℚ) * 0.005
    let distance := |price_level - nearest_round|
    if distance ≤ 0.0010 then (cfg.ROUND_MAX * 0.3 * (1 - distance / 0.0010), "NEAR_ROUND")
    else (0, "NONE")

/-- The `weights.get(level_name, 0.5)` table in `_calculate_fibonacci_score`. -/
def fibWeight (name : String) : ℚ :=
  if name = "0.618" then 1
  else if name = "0.5" then 0.85
  else if name = "0.382" then 0.75
  else if name = "0.786" then 0.70
  else if name = "0.236" then 0.60
  else 0.5

/-- The fold over `fib_levels.items()` in `_calculate_fibonacci_score`, keeping the
best (strictly greater) weighted proximity score. -/
def fibBest (cfg : Cfg) (price_level : ℚ) : List (String × ℚ) → ℚ × String → ℚ × String
  | [], best => best
  | (level_name, level_price) :: rest, best =>
    let distance := |price_level - level_price|
    let proximity_threshold := cfg.FIB_PROXIMITY_PIPS * cfg.pip_value
    let best' :=
      if distance ≤ proximity_threshold then
        let score := cfg.FIB_MAX * fibWeight level_name * (1 - distance / proximity_threshold)
        if score > best.1 then (score, level_name) else best
      else best
    fibBest cfg price_level rest best'

/-- `ScoreCalculator._calculate_fibonacci_score`. -/
def fibScore (cfg : Cfg) (price_level : ℚ) (fib_levels : List (String × ℚ)) : ℚ × String :=
  if fib_levels = [] then (0, "")
  else fibBest cfg price_level fib_levels (0, "")

/-- `ScoreCalculator._calculate_dom_score`.  The database collaborator is an optional
function from the price level to the average historical volume
(`db.get_avg_volume_at_level`); when it is `none` the code draws
`np.random.uniform(0, DOM_MAX * 0.4)`, modelled by the explicit argument `r`. -/
def domScore (cfg : Cfg) (db : Option (ℚ → ℚ)) (r : ℚ) (price_level : ℚ) : ℚ :=
  match db with
  | none => r
  | some avgVolumeAt =>
    let avg_volume := avgVolumeAt price_level
    if avg_volume ≥ cfg.DOM_THRESHOLD then cfg.DOM_MAX
    else if avg_volume ≥ cfg.DOM_THRESHOLD * 0.6 then
      cfg.DOM_MAX * 0.6 +
        cfg.DOM_MAX * 0.4 * ((avg_volume - cfg.DOM_THRESHOLD * 0.6) / (cfg.DOM_THRESHOLD * 0.4))
    else if avg_volume > 0 then (avg_volume / (cfg.DOM_THRESHOLD * 0.6)) * (cfg.DOM_MAX * 0.6)
    else 0

/-- `ScoreCalculator._calculate_delta_score`. -/
def deltaScore (cfg : Cfg) (delta : ℚ) : ℚ :=
  let abs_delta := |delta|
  if abs_delta ≥ cfg.DELTA_THRESHOLD then cfg.DELTA_MAX
  else if abs_delta ≥ cfg.DELTA_THRESHOLD * 0.5 then
    cfg.DELTA_MAX * 0.5 +
      cfg.DELTA_MAX * 0.5 * ((abs_delta - cfg.DELTA_THRESHOLD * 0.5) / (cfg.DELTA_THRESHOLD * 0.5))
  else (abs_delta / (cfg.DELTA_THRESHOLD * 0.5)) * (cfg.DELTA_MAX * 0.5)

/-- Python's `max(breakdown, key=breakdown.get)` over the breakdown dict in insertion
order: the first entry with the maximal value. -/
def maxComponent : List (String × ℚ) → String × ℚ
  | [] => ("", 0)
  | p :: ps => ps.foldl (fun best q => if q.2 > best.2 then q else best) p

/-- `ScoreCalculator._determine_zone_type`. -/
def determineZoneType (cfg : Cfg) (breakdown : List (String × ℚ))
    (round_type fib_level : String) : String :=
  let m := maxComponent breakdown
  if m.1 = "vwap" ∧ m.2 ≥ cfg.VWAP_MAX * 0.8 then "VWAP_REVERSION"
  else if m.1 = "round_number" ∧ round_type ≠ "NONE" then
    if round_type = "MAJOR_ROUND" then "INSTITUTIONAL_ROUND" else "ROUND_" ++ round_type
  else if m.1 = "fibonacci" ∧ fib_level ≠ "" then "FIB_" ++ fib_level
  else if m.1 = "dom" then "DOM_CLUSTER"
  else if m.1 = "delta" then "DELTA_IMBALANCE"
  else if 2 ≤ (breakdown.filter (fun p => p.2 > 15)).length then "CONFLUENCE_ZONE"
  else "MIXED"

/-- `ScoreCalculator._determine_direction`: the returned value is the position bias
relative to the current bid. -/
def determineDirection (price_level : ℚ) (md : MarketData) : String :=
  if price_level > md.bid then "LONG" else "SHORT"

/-- `ScoreCalculator._calculate_trigger_price`. -/
def triggerPrice (cfg : Cfg) (zone_price : ℚ) (direction : String) : ℚ :=
  let offset := cfg.ENTRY_OFFSET_PIPS * cfg.pip_value
  if direction = "LONG" then zone_price - offset else zone_price + offset

/-- `ScoreCalculator._calculate_stop_loss`. -/
def stopLossPrice (cfg : Cfg) (trigger_price : ℚ) (direction : String) : ℚ :=
  let sl_offset := cfg.STOP_LOSS_PIPS * cfg.pip_value
  if direction = "LONG" then trigger_price - sl_offset else trigger_price + sl_offset

/-- The `ExecutionZone` dataclass (src/score_calculator.py). -/
structure ExecutionZone where
  price : ℚ
  score : ℚ
  direction : String
  score_breakdown : List (String × ℚ)
  zone_type : String
  trigger_price : ℚ
  stop_loss : ℚ
  confidence_level : String
deriving DecidableEq

/-- `ScoreCalculator.calculate_score`. -/
def calculateScore (cfg : Cfg) (db : Option (ℚ → ℚ)) (r : ℚ) (price_level : ℚ)
    (md : MarketData) : ExecutionZone :=
  let vwap_score := vwapScore cfg price_level md.vwap
  let rn := roundNumberScore cfg price_level
  let fb := fibScore cfg price_level md.fib_levels
  let dom_score := domScore cfg db r price_level
  let delta_score := deltaScore cfg md.bid_ask_delta
  let breakdown := [("vwap", vwap_score), ("round_number", rn.1), ("fibonacci", fb.1),
    ("dom", dom_score), ("delta", delta_score)]
  let total_score := min (vwap_score + rn.1 + fb.1 + dom_score + delta_score) 100
  let zone_type := determineZoneType cfg breakdown rn.2 fb.2
  let direction := determineDirection price_level md
  let trigger_price := triggerPrice cfg price_level direction
  let stop_loss := stopLossPrice cfg trigger_price direction
  let confidence :=
    if total_score ≥ 95 then "VERY_HIGH"
    else if total_score ≥ 90 then "HIGH"
    else if total_score ≥ 80 then "MEDIUM"
    else "LOW"
  ⟨price_level, total_score, direction, breakdown, zone_type, trigger_price, stop_loss,
    confidence⟩

/-- Stable descending insertion (the effect of Python's stable
`sorted(zones, key=lambda z: z.score, reverse=True)` on the score order). -/
def insertZone (z : ExecutionZone) : List ExecutionZone → List ExecutionZone
  | [] => [z]
  | w :: ws => if z.score > w.score then z :: w :: ws else w :: insertZone z ws

/-- Sort a zone list by score, descending. -/
def sortZonesDesc : List ExecutionZone → List ExecutionZone
  | [] => []
  | z :: zs => insertZone z (sortZonesDesc zs)

/-- The scanned price levels `bid + pip_offset * pip_value` for
`pip_offset in range(-range_pips, range_pips + 1)`. -/
def scanLevels (range_pips : ℕ) (bid pip : ℚ) : List ℚ :=
  (List.range (2 * range_pips + 1)).map (fun i => bid + (((i : ℤ) - (range_pips : ℤ)) : ℚ) * pip)

/-- `ScoreCalculator.scan_all_zones`: score the window, keep zones with score ≥ 50,
and sort descending by score.  `draws` supplies the fresh random draw for each
scored level when the database is absent. -/
def scanAllZones (cfg : Cfg) (db : Option (ℚ → ℚ)) (draws : ℚ → ℚ) (md : MarketData)
    (range_pips : ℕ) : List ExecutionZone :=
  let zones := ((scanLevels range_pips md.bid cfg.pip_value).map
      (fun lvl => calculateScore cfg db (draws lvl) lvl md)).filter
      (fun z => z.score ≥ 50)
  sortZonesDesc zones

/-- `ScoreCalculator.get_best_zone` (the scan uses the default `range_pips = 20`). -/
def getBestZone (cfg : Cfg) (db : Option (ℚ → ℚ)) (draws : ℚ → ℚ) (md : MarketData)
    (min_score : ℚ) : Option ExecutionZone :=
  match scanAllZones cfg db draws md 20 with
  | [] => none
  | z :: _ => if z.score ≥ min_score then some z else none

end Score

namespace Sig

/-- The correlation verdict dictionary returned by
`SignalGenerator._check_correlation` (the fields the pipeline reads). -/
structure CorrResult where
  confirmed : Bool
  status : String
deriving DecidableEq

/-- The DXY trend classification in `_check_correlation`: net change between the
first bar's open and the last bar's close, with a 0.001 flat band. -/
def dxyTrend (bars : List (ℚ × ℚ)) : String :=
  let dxy_open := (bars.headD (0, 0)).1
  let dxy_close := (bars.getLastD (0, 0)).2
  let dxy_change := dxy_close - dxy_open
  if dxy_change > 0.001 then "UP"
  else if dxy_change < -0.001 then "DOWN"
  else "FLAT"

/-- `SignalGenerator._check_correlation`.  `dxyAvailable` models whether
`mt5.symbol_select` succeeds for any candidate symbol, and `dxyBars` the
`copy_rates_from_pos` answer (`none` for a `None` reply), each bar an
(open, close) pair. -/
def checkCorrelation (enabled : Bool) (direction : String) (dxyAvailable : Bool)
    (dxyBars : Option (List (ℚ × ℚ))) : CorrResult :=
  if ¬ enabled then ⟨true, "DISABLED"⟩
  else if ¬ dxyAvailable then ⟨true, "UNAVAILABLE"⟩
  else
    match dxyBars with
    | none => ⟨true, "NO_DATA"⟩
    | some bars =>
      if bars.length < 5 then ⟨true, "NO_DATA"⟩
      else
        let t := dxyTrend bars
        if direction = "LONG" then
          if t = "DOWN" then ⟨true, "CONFIRMED"⟩
          else if t = "FLAT" then ⟨true, "NEUTRAL"⟩
          else ⟨false, "CONFLICTING"⟩
        else
          if t = "UP" then ⟨true, "CONFIRMED"⟩
          else if t = "FLAT" then ⟨true, "NEUTRAL"⟩
          else ⟨false, "CONFLICTING"⟩

/-- The `TradeSignal` dataclass (src/core/signal_generator.py), decision fields. -/
structure TradeSignal where
  direction : String
  zone : Score.ExecutionZone
  entry_price : ℚ
  stop_loss : ℚ
  suggested_lot : ℚ
  confidence : ℚ
  correlation_confirmed : Bool
  correlation_status : String
deriving DecidableEq

/-- Configuration surface of `SignalGenerator.__init__`. -/
structure SigCfg where
  scan_range_pips : ℕ
  min_score : ℚ
  correlation_enabled : Bool
  pip_value : ℚ
deriving DecidableEq

/-- Default values from `SignalGenerator.__init__`. -/
def defaultSigCfg : SigCfg :=
  { scan_range_pips := 20, min_score := 90, correlation_enabled := true, pip_value := 1/10000 }

/-- `SignalGenerator._is_blackout_period`, over blackout windows and the current
time given in minutes of the day. -/
def isBlackout (blackouts : List (ℕ × ℕ)) (nowMinutes : ℕ) : Bool :=
  blackouts.any (fun period => decide (period.1 ≤ nowMinutes) && decide (nowMinutes ≤ period.2))

/-- `SignalGenerator._is_active_session`: London 07:00–16:00 or New York 12:00–21:00
by the current hour, unless `active_sessions_only` is off. -/
def isActiveSession (activeSessionsOnly : Bool) (hour : ℕ) : Bool :=
  if ¬ activeSessionsOnly then true
  else decide ((7 ≤ hour ∧ hour < 16) ∨ (12 ≤ hour ∧ hour < 21))

/-- `SignalGenerator._check_stop_hunt_pattern`: inside the 08:00–08:30 window,
fade a 5–12 pip false breakout beyond yesterday's high/low with a fixed
92-confidence counter-trend signal.  `yesterdayBar` is the (high, low) of the
prior daily bar, `none` when the terminal returns no data. -/
def checkStopHunt (scfg : SigCfg) (nowMinutes : ℕ) (yesterdayBar : Option (ℚ × ℚ))
    (bid : ℚ) : Option TradeSignal :=
  if ¬ (480 ≤ nowMinutes ∧ nowMinutes ≤ 510) then none
  else
    match yesterdayBar with
    | none => none
    | some (yesterday_high, yesterday_low) =>
      if bid > yesterday_high + 5 * scfg.pip_value then
        let breakout_pips := (bid - yesterday_high) / scfg.pip_value
        if breakout_pips ≤ 12 then
          let zone : Score.ExecutionZone :=
            ⟨yesterday_high, 92, "SHORT", [("stop_hunt", 92)], "STOP_HUNT_HIGH", bid,
              bid + 15 * scfg.pip_value, "HIGH"⟩
          some ⟨"SHORT", zone, bid, bid + 15 * scfg.pip_value, 1/100, 92, true, "STOP_HUNT"⟩
        else none
      else if bid < yesterday_low - 5 * scfg.pip_value then
        let breakout_pips := (yesterday_low - bid) / scfg.pip_value
        if breakout_pips ≤ 12 then
          let zone : Score.ExecutionZone :=
            ⟨yesterday_low, 92, "LONG", [("stop_hunt", 92)], "STOP_HUNT_LOW", bid,
              bid - 15 * scfg.pip_value, "HIGH"⟩
          some ⟨"LONG", zone, bid, bid - 15 * scfg.pip_value, 1/100, 92, true, "STOP_HUNT"⟩
        else none
      else none

/-- The external-world inputs one `scan_and_generate` call reads. -/
structure Env where
  nowMinutes : ℕ
  blackouts : List (ℕ × ℕ)
  activeSessionsOnly : Bool
  yesterdayBar : Option (ℚ × ℚ)
  dxyAvailable : Bool
  dxyBars : Option (List (ℚ × ℚ))

/-- `SignalGenerator.scan_and_generate`: blackout and session gates, stop-hunt
override, zone scan, distance gate, correlation adjustment, final threshold. -/
def scanAndGenerate (scfg : SigCfg) (cfg : Score.Cfg) (db : Option (ℚ → ℚ))
    (draws : ℚ → ℚ) (env : Env) (md : Score.MarketData) : Option TradeSignal :=
  if isBlackout env.blackouts env.nowMinutes then none
  else if ¬ isActiveSession env.activeSessionsOnly (env.nowMinutes / 60) then none
  else
    match checkStopHunt scfg env.nowMinutes env.yesterdayBar md.bid with
    | some stop_hunt_signal => some stop_hunt_signal
    | none =>
      match Score.getBestZone cfg db draws md scfg.min_score with
      | none => none
      | some best_zone =>
        if |best_zone.price - md.bid| > (scfg.scan_range_pips : ℚ) * scfg.pip_value then none
        else
          let correlation_result :=
            checkCorrelation scfg.correlation_enabled best_zone.direction env.dxyAvailable
              env.dxyBars
          let adjusted_confidence :=
            if correlation_result.confirmed then best_zone.score + 5 else best_zone.score - 15
          if adjusted_confidence < scfg.min_score then none
          else
            some ⟨best_zone.direction, best_zone, best_zone.trigger_price, best_zone.stop_loss,
              1/100, adjusted_confidence, correlation_result.confirmed,
              correlation_result.status⟩

end Sig

namespace PM

/-- Configuration surface of `PositionManager.__init__` (src/position_manager.py). -/
structure Cfg where
  volume_drop_threshold : ℚ
  spread_widen_threshold : ℚ
  price_stall_pips : ℚ
  max_hold_minutes : ℚ
  pip_value : ℚ
deriving DecidableEq

/-- Default values from `PositionManager.__init__`. -/
def defaultCfg : Cfg :=
  { volume_drop_threshold := 0.70, spread_widen_threshold := 1.50, price_stall_pips := 2
    max_hold_minutes := 15, pip_value := 1/10000 }

/-- The manager's rolling history buffers (`_volume_history`, `_spread_history`). -/
structure State where
  volume_history : List ℚ
  spread_history : List ℚ
deriving DecidableEq

/-- `PositionManager._check_volume_drop` over the (already updated) volume buffer. -/
def checkVolumeDrop (cfg : Cfg) (vh : List ℚ) : Bool :=
  if vh.length < 20 then false
  else
    let recent := mean (lastN 5 vh)
    let average := if vh.length ≥ 50 then mean (lastN 50 vh) else mean vh
    decide (average > 0) && decide (recent < average * cfg.volume_drop_threshold)

/-- `PositionManager._check_spread_widening` over the (already updated) spread buffer. -/
def checkSpreadWidening (cfg : Cfg) (sh : List ℚ) : Bool :=
  if sh.length < 20 then false
  else
    let current := sh.getLastD 0
    let average := if sh.length ≥ 50 then mean (lastN 50 sh) else mean sh
    decide (average > 0) && decide (current > average * cfg.spread_widen_threshold)

/-- `PositionManager._check_price_stall`: the bid range of the last 5 collector
ticks is below the stall threshold. -/
def checkPriceStall (cfg : Cfg) (recent_ticks : List ℚ) : Bool :=
  if recent_ticks.length < 5 then false
  else
    let price_range := listMax recent_ticks - listMin recent_ticks
    decide (price_range < cfg.price_stall_pips * cfg.pip_value)

/-- `PositionManager.detect_exhaustion`: append the current volume/spread samples
(keeping the last 100), then test volume drop, spread widening and price stall;
any one of the three triggers.  Note the Python function receives the position but
reads none of its fields — in particular not its profit. -/
def detectExhaustion (cfg : Cfg) (s : State) (current_volume current_spread : ℚ)
    (recent_ticks : List ℚ) : Bool × State :=
  let vh := lastN 100 (s.volume_history ++ [current_volume])
  let sh := lastN 100 (s.spread_history ++ [current_spread])
  let volume_exhausted := checkVolumeDrop cfg vh
  let spread_exhausted := checkSpreadWidening cfg sh
  let price_stalled := checkPriceStall cfg recent_ticks
  (volume_exhausted || spread_exhausted || price_stalled, ⟨vh, sh⟩)

/-- `PositionManager.check_time_limit` on the elapsed holding time in seconds. -/
def checkTimeLimit (cfg : Cfg) (elapsed_seconds : ℚ) : Bool :=
  decide (elapsed_seconds ≥ cfg.max_hold_minutes * 60)

/-- `PositionManager.monitor_position`: exhaustion first, then the time limit, then
the stopped-out test (`still_open = false` models the ticket no longer appearing in
`get_open_positions`, the broker having executed the server-side stop).  The
trailing-stop step never produces a close decision.  `pips` is the position's
current profit in pips; the decision does not read it. -/
def monitorPosition (cfg : Cfg) (s : State) (current_volume current_spread : ℚ)
    (recent_ticks : List ℚ) (elapsed_seconds : ℚ) (still_open : Bool) (pips : ℚ) :
    Option String × State :=
  let ex := detectExhaustion cfg s current_volume current_spread recent_ticks
  if ex.1 then (some "EXHAUSTION", ex.2)
  else if checkTimeLimit cfg elapsed_seconds then (some "TIME_LIMIT", ex.2)
  else if ¬ still_open then (some "STOP_LOSS", ex.2)
  else (none, ex.2)

end PM

namespace Risk

/-- Configuration surface of `RiskController.__init__` (src/risk_controller.py). -/
structure Cfg where
  risk_per_trade : ℚ
  max_daily_loss : ℚ
  max_total_drawdown : ℚ
  max_trades_per_day : ℕ
  min_trade_interval_seconds : ℚ
deriving DecidableEq

/-- Default values from `RiskController.__init__`. -/
def defaultCfg : Cfg :=
  { risk_per_trade := 1/100, max_daily_loss := 1/20, max_total_drawdown := 1/10
    max_trades_per_day := 3, min_trade_interval_seconds := 10800 }

/-- The controller's mutable counters.  Times are wall-clock seconds. -/
structure State where
  starting_balance : ℚ
  highest_balance : ℚ
  today_starting : ℚ
  today_loss : ℚ
  today_trades : ℕ
  last_trade_time : Option ℚ
  bot_stopped : Bool
deriving DecidableEq

/-- `RiskController.initialize` without a database (fresh day, no prior trades). -/
def initState (balance : ℚ) : State :=
  ⟨balance, balance, balance, 0, 0, none, false⟩

/-- `RiskController.update_balance`: raise the high-water mark, and recompute the
daily loss from the current balance when it is below the day's start. -/
def updateBalance (s : State) (current_balance : ℚ) : State :=
  let s1 := if current_balance > s.highest_balance
    then { s with highest_balance := current_balance } else s
  if current_balance < s1.today_starting
    then { s1 with today_loss := s1.today_starting - current_balance } else s1

/-- `RiskController._check_daily_loss`. -/
def checkDailyLoss (cfg : Cfg) (s : State) : Bool :=
  decide (s.today_loss < s.today_starting * cfg.max_daily_loss)

/-- `RiskController._check_total_drawdown`. -/
def checkTotalDrawdown (cfg : Cfg) (s : State) : Bool :=
  let current := s.today_starting - s.today_loss
  decide ((s.starting_balance - current) / s.starting_balance < cfg.max_total_drawdown)

/-- `RiskController._check_trade_count`. -/
def checkTradeCount (cfg : Cfg) (s : State) : Bool :=
  decide (s.today_trades < cfg.max_trades_per_day)

/-- `RiskController._check_trade_interval`. -/
def checkTradeInterval (cfg : Cfg) (s : State) (now : ℚ) : Bool :=
  match s.last_trade_time with
  | none => true
  | some t => decide (now - t ≥ cfg.min_trade_interval_seconds)

/-- `RiskController.can_trade`: the answer, the reason, and the possibly updated
state (the lifetime-drawdown branch latches `_bot_stopped`). -/
def canTrade (cfg : Cfg) (s : State) (now : ℚ) : Bool × String × State :=
  if s.bot_stopped then (false, "Bot is stopped due to risk limits", s)
  else if ¬ checkDailyLoss cfg s then (false, "Daily loss limit reached", s)
  else if ¬ checkTotalDrawdown cfg s then
    (false, "Total drawdown limit reached", { s with bot_stopped := true })
  else if ¬ checkTradeCount cfg s then (false, "Max trades per day reached", s)
  else if ¬ checkTradeInterval cfg s now then (false, "Trade interval not met", s)
  else (true, "OK", s)

/-- `RiskController.record_trade`. -/
def recordTrade (s : State) (profit : ℚ) (now : ℚ) : State :=
  let s1 := { s with today_trades := s.today_trades + 1, last_trade_time := some now }
  if profit < 0 then { s1 with today_loss := s1.today_loss + |profit| } else s1

/-- `RiskController.reset_daily`. -/
def resetDaily (s : State) (new_balance : ℚ) : State :=
  { s with today_starting := new_balance, today_loss := 0, today_trades := 0 }

/-- One controller operation of a run (no daily reset variants are distinguished
here; `reset` is `reset_daily` and `query` a `can_trade` call). -/
inductive Op where
  | updBal (b : ℚ)
  | recTrade (profit now : ℚ)
  | reset (b : ℚ)
  | query (now : ℚ)
deriving DecidableEq

/-- Apply one operation to the controller state. -/
def applyOp (cfg : Cfg) (s : State) : Op → State
  | .updBal b => updateBalance s b
  | .recTrade p t => recordTrade s p t
  | .reset b => resetDaily s b
  | .query t => (canTrade cfg s t).2.2

/-- Apply a sequence of operations, left to right. -/
def applyOps (cfg : Cfg) (s : State) : List Op → State
  | [] => s
  | op :: ops => applyOps cfg (applyOp cfg s op) ops

end Risk

/-! Concrete instances used by witnesses and counterexamples. -/

/-- A database collaborator answering 1500 lots at every level. -/
def db1500 : Option (ℚ → ℚ) := some fun _ => 1500

/-- A zero random-draw stream. -/
def draws0 : ℚ → ℚ := fun _ => 0

/-- Snapshot with bid 1.0580, VWAP 1, delta 8000, one Fibonacci level at 1.06. -/
def md3 : Score.MarketData := ⟨1.0580, 1, 8000, [("0.618", 1.06)]⟩

/-- Environment at 13:00, no blackouts, sessions enforced, no daily bar, DXY
symbol unavailable. -/
def env3 : Sig.Env := ⟨780, [], true, none, false, none⟩

/-- Same environment, but the DXY symbol selects and returns a single bar —
fewer than the 5 bars the correlation check needs (the no-usable-data case). -/
def env3b : Sig.Env := ⟨780, [], true, none, true, some [(1, 1)]⟩

/-- The zone `scan_all_zones` finds at level 1.0600 in `md3` with `db1500`. -/
def c3zone : Score.ExecutionZone :=
  ⟨53/50, 100, "LONG",
    [("vwap", 30), ("round_number", 25), ("fibonacci", 20), ("dom", 15), ("delta", 10)],
    "VWAP_REVERSION", 10593/10000, 10583/10000, "VERY_HIGH"⟩

/-- Snapshot with bid 1, VWAP 0.9, delta 8000, one Fibonacci level at 1. -/
def md10 : Score.MarketData := ⟨1, 0.9, 8000, [("0.618", 1)]⟩

/-- The zone `scan_all_zones` finds at level 1 in `md10` without a database. -/
def c10zone : Score.ExecutionZone :=
  ⟨1, 85, "SHORT",
    [("vwap", 30), ("round_number", 25), ("fibonacci", 20), ("dom", 0), ("delta", 10)],
    "VWAP_REVERSION", 10007/10000, 10017/10000, "MEDIUM"⟩

/-- Degenerate snapshot: bid 1, no VWAP, no delta, no Fibonacci levels. -/
def md9 : Score.MarketData := ⟨1, 0, 0, []⟩

/-- Risk state: lifetime start 1000, day start 920, daily loss 30 — the daily-loss
check passes while the lifetime-drawdown check fails. -/
def s6risk : Risk.State := ⟨1000, 1000, 920, 30, 0, none, false⟩

/-- Risk state after one losing trade of 60 recorded at time 0 on a 1000 start. -/
def c5s1 : Risk.State := Risk.recordTrade (Risk.initState 1000) (-60) 0

/-! ## Theorems -/

/-- `can_trade` on a stopped controller refuses and leaves the state unchanged. -/
theorem canTrade_stopped (cfg : Risk.Cfg) (s : Risk.State) (t : ℚ)
    (h : s.bot_stopped = true) :
    (Risk.canTrade cfg s t).1 = false ∧ (Risk.canTrade cfg s t).2.2 = s := by
  unfold Risk.canTrade
  rw [h]
  simp

/-- No controller operation clears the `_bot_stopped` latch. -/
theorem applyOp_stopped (cfg : Risk.Cfg) (s : Risk.State) (op : Risk.Op)
    (h : s.bot_stopped = true) : (Risk.applyOp cfg s op).bot_stopped = true := by
  cases op with
  | updBal b =>
    simp only [Risk.applyOp, Risk.updateBalance]
    split_ifs <;> simp [h]
  | recTrade p t =>
    simp only [Risk.applyOp, Risk.recordTrade]
    split_ifs <;> simp [h]
  | reset b =>
    simp only [Risk.applyOp, Risk.resetDaily]
    exact h
  | query t =>
    simp only [Risk.applyOp]
    rw [(canTrade_stopped cfg s t h).2]
    exact h

/-- No sequence of controller operations clears the `_bot_stopped` latch. -/
theorem applyOps_stopped (cfg : Risk.Cfg) (s : Risk.State) (ops : List Risk.Op)
    (h : s.bot_stopped = true) : (Risk.applyOps cfg s ops).bot_stopped = true := by
  induction ops generalizing s with
  | nil => exact h
  | cons op ops ih => exact ih _ (applyOp_stopped cfg s op h)

/-- A `can_trade` call whose daily-loss check passes and whose lifetime-drawdown
check fails leaves the controller latched stopped. -/
theorem canTrade_latch (cfg : Risk.Cfg) (s : Risk.State) (t : ℚ)
    (h1 : Risk.checkDailyLoss cfg s = true) (h2 : Risk.checkTotalDrawdown cfg s = false) :
    ((Risk.canTrade cfg s t).2.2).bot_stopped = true := by
  unfold Risk.canTrade
  cases hstop : s.bot_stopped with
  | true => simp [hstop]
  | false => simp [hstop, h1, h2]

/-- No controller operation changes the high-water balance downward. -/
theorem applyOp_highest (cfg : Risk.Cfg) (s : Risk.State) (op : Risk.Op) :
    s.highest_balance ≤ (Risk.applyOp cfg s op).highest_balance := by
  cases op with
  | updBal b =>
    simp only [Risk.applyOp, Risk.updateBalance]
    split_ifs <;> simp <;> linarith
  | recTrade p t =>
    simp only [Risk.applyOp, Risk.recordTrade]
    split_ifs <;> simp
  | reset b =>
    simp only [Risk.applyOp, Risk.resetDaily]
    exact le_refl _
  | query t =>
    simp only [Risk.applyOp, Risk.canTrade]
    split_ifs <;> simp

/-- The high-water balance never decreases across an operation sequence. -/
theorem applyOps_highest (cfg : Risk.Cfg) (s : Risk.State) (ops : List Risk.Op) :
    s.highest_balance ≤ (Risk.applyOps cfg s ops).highest_balance := by
  induction ops generalizing s with
  | nil => exact le_refl _
  | cons op ops ih => exact (applyOp_highest cfg s op).trans (ih _)

/-- Claim C1, counterexample.  On a tick where the position has been stopped out
(it no longer appears among open positions, `still_open = false`) and the price-stall
exhaustion condition also holds, `monitor_position` returns `EXHAUSTION`, not
`STOP_LOSS`: the stop-loss check does not take precedence over exhaustion. -/
theorem c1_counterexample :
    (PM.monitorPosition PM.defaultCfg ⟨[], []⟩ 1 1 [1, 1, 1, 1, 1] 0 false 0).1 =
        some "EXHAUSTION" ∧
    (PM.monitorPosition PM.defaultCfg ⟨[], []⟩ 1 1 [1, 1, 1, 1, 1] 0 false 0).1 ≠
        some "STOP_LOSS" := by
  decide

/-- Claim C1, amended: the per-tick exit evaluation of `monitor_position` checks
exhaustion first and the stopped-out condition last, so on a tick with the stop
crossed (`still_open = false`) the decision is `EXHAUSTION` whenever any exhaustion
condition holds, and `STOP_LOSS` only when neither exhaustion nor the time limit
fires. -/
theorem c1_exit_precedence_amended (cfg : PM.Cfg) (s : PM.State) (v sp : ℚ)
    (ticks : List ℚ) (e pips : ℚ) :
    ((PM.detectExhaustion cfg s v sp ticks).1 = true →
      (PM.monitorPosition cfg s v sp ticks e false pips).1 = some "EXHAUSTION") ∧
    ((PM.detectExhaustion cfg s v sp ticks).1 = false → PM.checkTimeLimit cfg e = false →
      (PM.monitorPosition cfg s v sp ticks e false pips).1 = some "STOP_LOSS") := by
  constructor
  · intro h
    simp [PM.monitorPosition, h]
  · intro h ht
    simp [PM.monitorPosition, h, ht]

/-- Witness for `c1_exit_precedence_amended` at concrete ticks. -/
theorem c1_exit_precedence_amended_witness :
    (PM.monitorPosition PM.defaultCfg ⟨[], []⟩ 1 1 [1, 1, 1, 1, 1] 0 false 0).1 =
        some "EXHAUSTION" ∧
    (PM.monitorPosition PM.defaultCfg ⟨[], []⟩ 1 1 [] 0 false 0).1 = some "STOP_LOSS" :=
  ⟨(c1_exit_precedence_amended PM.defaultCfg ⟨[], []⟩ 1 1 [1, 1, 1, 1, 1] 0 0).1 (by decide),
   (c1_exit_precedence_amended PM.defaultCfg ⟨[], []⟩ 1 1 [] 0 0).2 (by decide) (by decide)⟩

/-- Claim C2, counterexample.  `detect_exhaustion` fires (via the price-stall check)
on a tick where the history buffers hold a single sample (fewer than 20) and the
position profit is 0 pips (below any minimum-profit threshold): `monitor_position`
closes with `EXHAUSTION` anyway. -/
theorem c2_counterexample :
    (PM.monitorPosition PM.defaultCfg ⟨[], []⟩ 1 1 [1, 1, 1, 1, 1] 0 true 0).1 =
        some "EXHAUSTION" ∧
    (PM.State.mk [] []).volume_history.length + 1 < 20 ∧ (0 : ℚ) < 10 := by
  decide

/-- Claim C2, amended: only the volume and spread exhaustion checks are gated on the
20-sample history minimum — with short buffers `detect_exhaustion` reduces exactly
to the price-stall check, which needs only 5 recent collector ticks; and no
minimum-profit precondition exists (the decision never reads the position profit). -/
theorem c2_exhaustion_gating_amended (cfg : PM.Cfg) (s : PM.State) (v sp : ℚ)
    (ticks : List ℚ)
    (hv : (lastN 100 (s.volume_history ++ [v])).length < 20)
    (hs : (lastN 100 (s.spread_history ++ [sp])).length < 20) :
    (PM.detectExhaustion cfg s v sp ticks).1 = PM.checkPriceStall cfg ticks := by
  have h1 : PM.checkVolumeDrop cfg (lastN 100 (s.volume_history ++ [v])) = false := by
    unfold PM.checkVolumeDrop
    rw [if_pos hv]
  have h2 : PM.checkSpreadWidening cfg (lastN 100 (s.spread_history ++ [sp])) = false := by
    unfold PM.checkSpreadWidening
    rw [if_pos hs]
  simp [PM.detectExhaustion, h1, h2]

/-- Witness for `c2_exhaustion_gating_amended` on empty buffers. -/
theorem c2_exhaustion_gating_amended_witness :
    (PM.detectExhaustion PM.defaultCfg ⟨[], []⟩ 1 1 [1, 1, 1, 1, 1]).1 =
      PM.checkPriceStall PM.defaultCfg [1, 1, 1, 1, 1] :=
  c2_exhaustion_gating_amended PM.defaultCfg ⟨[], []⟩ 1 1 [1, 1, 1, 1, 1]
    (by decide) (by decide)

/-- Claim C4, counterexample.  With no daily reset in between, two balance updates
(900 then a partial recovery to 950, both below the 1000 day start) make the daily
loss counter decrease from 100 to 50: `update_balance` recomputes rather than
accumulates it. -/
theorem c4_counterexample :
    (Risk.applyOps Risk.defaultCfg (Risk.initState 1000)
        [Risk.Op.updBal 900, Risk.Op.updBal 950]).today_loss <
      (Risk.applyOps Risk.defaultCfg (Risk.initState 1000) [Risk.Op.updBal 900]).today_loss := by
  decide

/-- Claim C4, amended: the lifetime high-water balance is monotonically
non-decreasing across every operation sequence, and `record_trade` never decreases
the daily loss counter; but `update_balance` recomputes the daily loss from the
current balance, so the counter can decrease within a day when the balance
recovers. -/
theorem c4_monotonicity_amended (cfg : Risk.Cfg) (s : Risk.State) (ops : List Risk.Op) :
    s.highest_balance ≤ (Risk.applyOps cfg s ops).highest_balance ∧
    ∀ p t : ℚ, s.today_loss ≤ (Risk.recordTrade s p t).today_loss := by
  refine ⟨applyOps_highest cfg s ops, ?_⟩
  intro p t
  simp only [Risk.recordTrade]
  split_ifs <;> simp [abs_nonneg]

/-- Claim C5, counterexample.  After a recorded 60 loss on a 1000 start the daily
limit (50) is breached and `can_trade` refuses; but a later `update_balance` to 990
lowers the recomputed daily loss to 10, and the next `can_trade` (past the trade
interval) returns true — with no `reset_daily` call in between. -/
theorem c5_counterexample :
    c5s1.today_starting * Risk.defaultCfg.max_daily_loss ≤ c5s1.today_loss ∧
    (Risk.canTrade Risk.defaultCfg c5s1 1).1 = false ∧
    (Risk.canTrade Risk.defaultCfg
        (Risk.updateBalance ((Risk.canTrade Risk.defaultCfg c5s1 1).2.2) 990) 10801).1 =
      true := by
  decide

/-- Claim C5, amended: `can_trade` refuses whenever the current daily loss counter
is at or above `daily_starting_balance × max_daily_loss_fraction`; the condition is
re-evaluated from the counter on every call (there is no daily-loss latch), so it
keeps refusing only while the counter stays at or above the limit. -/
theorem c5_daily_loss_blocks_amended (cfg : Risk.Cfg) (s : Risk.State) (now : ℚ)
    (h : s.today_starting * cfg.max_daily_loss ≤ s.today_loss) :
    (Risk.canTrade cfg s now).1 = false := by
  have hd : Risk.checkDailyLoss cfg s = false := by
    unfold Risk.checkDailyLoss
    exact decide_eq_false (not_lt.mpr h)
  unfold Risk.canTrade
  split_ifs <;> simp_all

/-- Witness for `c5_daily_loss_blocks_amended` on the post-loss state. -/
theorem c5_daily_loss_blocks_amended_witness :
    (Risk.canTrade Risk.defaultCfg c5s1 1).1 = false :=
  c5_daily_loss_blocks_amended Risk.defaultCfg c5s1 1 (by decide)

/-- Claim C6: once a `can_trade` call reaches the lifetime-drawdown check and it
fails (the daily-loss check passing), the controller is latched stopped: every
later `can_trade` call returns false after any sequence of balance updates, trade
recordings, daily resets and further queries — `reset_daily` never clears the
latch. -/
theorem c6_drawdown_latch (cfg : Risk.Cfg) (s : Risk.State) (t : ℚ)
    (ops : List Risk.Op) (t' : ℚ)
    (h1 : Risk.checkDailyLoss cfg s = true) (h2 : Risk.checkTotalDrawdown cfg s = false) :
    (Risk.canTrade cfg (Risk.applyOps cfg ((Risk.canTrade cfg s t).2.2) ops) t').1 =
      false := by
  have hl := canTrade_latch cfg s t h1 h2
  have hs := applyOps_stopped cfg _ ops hl
  exact (canTrade_stopped cfg _ t' hs).1

/-- Witness for `c6_drawdown_latch`: the latched state survives a daily rollover. -/
theorem c6_drawdown_latch_witness :
    (Risk.canTrade Risk.defaultCfg
        (Risk.applyOps Risk.defaultCfg ((Risk.canTrade Risk.defaultCfg s6risk 0).2.2)
          [Risk.Op.reset 1000]) 20000).1 = false :=
  c6_drawdown_latch Risk.defaultCfg s6risk 0 [Risk.Op.reset 1000] 20000
    (by decide) (by decide)

/-- Claim C8, counterexample.  For vwap 1.0600 and level 1.0580 the distance ratio
is 1/530 ≈ 0.00189 < 0.002, so the code lands in the 0.001–0.002 band: the VWAP
component is 3678/265 ≈ 13.88, not strictly greater than 15. -/
theorem c8_counterexample :
    Score.vwapScore Score.defaultCfg 1.0580 1.0600 = 3678/265 ∧
    ¬ (15 < Score.vwapScore Score.defaultCfg 1.0580 1.0600) := by
  decide

/-- Claim C8, amended: the 20-pip distance at vwap 1.0600 gives ratio 1/530, which
falls in the 0.001–0.002 band, so the VWAP component is strictly between 5 and 15
(and in particular not the saturated maximum of 30). -/
theorem c8_vwap_band_amended :
    5 < Score.vwapScore Score.defaultCfg 1.0580 1.0600 ∧
    Score.vwapScore Score.defaultCfg 1.0580 1.0600 < 15 ∧
    Score.vwapScore Score.defaultCfg 1.0580 1.0600 ≠ 30 := by
  decide

/-- Claim C9, counterexample.  Without a persistence collaborator the DOM component
is a fresh uniform draw from [0, 0.4 × DOM_MAX]: two invocations on the very same
level and snapshot whose draws are 0 and 6 (both legal outcomes) return different
`ExecutionZone`s, so the scorer is not deterministic in that configuration. -/
theorem c9_counterexample :
    Score.calculateScore Score.defaultCfg none 0 1 md9 ≠
      Score.calculateScore Score.defaultCfg none 6 1 md9 ∧
    (0 : ℚ) ≤ 0 ∧ (0 : ℚ) ≤ 6 ∧ (6 : ℚ) ≤ Score.defaultCfg.DOM_MAX * 0.4 := by
  decide

/-- Claim C9, amended: with the persistence collaborator present the scorer is a
pure function of the level, the snapshot and the historical-volume answer — in
particular the random draw is never consulted, so repeated invocations with the
same inputs return identical `ExecutionZone`s; only the collaborator-absent
configuration substitutes a random DOM component. -/
theorem c9_determinism_amended (db : Option (ℚ → ℚ)) (f : ℚ → ℚ) (r1 r2 level : ℚ)
    (md : Score.MarketData) (h : db = some f) :
    Score.calculateScore Score.defaultCfg db r1 level md =
      Score.calculateScore Score.defaultCfg db r2 level md := by
  subst h
  rfl

/-- Witness for `c9_determinism_amended` with draws 0 and 1. -/
theorem c9_determinism_amended_witness :
    Score.calculateScore Score.defaultCfg db1500 0 1 md9 =
      Score.calculateScore Score.defaultCfg db1500 1 1 md9 :=
  c9_determinism_amended db1500 (fun _ => 1500) 0 1 1 md9 rfl

/-- The VWAP component lies in [0, 30] for every level and nonnegative VWAP. -/
theorem vwapScore_bounds (level vwap : ℚ) (h : 0 ≤ vwap) :
    0 ≤ Score.vwapScore Score.defaultCfg level vwap ∧
      Score.vwapScore Score.defaultCfg level vwap ≤ 30 := by
  simp only [Score.vwapScore, Score.defaultCfg]
  set d := |level - vwap| / vwap with hd
  have hd0 : (0 : ℚ) ≤ d := div_nonneg (abs_nonneg _) h
  split_ifs with h0 h1 h2 h3
  · norm_num
  · norm_num
  · have hq0 : (0 : ℚ) ≤ (d - 0.002) / (0.003 - 0.002) :=
      div_nonneg (by linarith) (by norm_num)
    have hq1 : (d - 0.002) / (0.003 - 0.002) < 1 := by
      rw [div_lt_one (by norm_num)]
      have := not_le.mp h1
      linarith
    constructor <;> nlinarith [hq0, hq1]
  · have hq0 : (0 : ℚ) ≤ (d - 0.001) / (0.002 - 0.001) :=
      div_nonneg (by linarith) (by norm_num)
    have hq1 : (d - 0.001) / (0.002 - 0.001) < 1 := by
      rw [div_lt_one (by norm_num)]
      have := not_le.mp h2
      linarith
    constructor <;> nlinarith [hq0, hq1]
  · have hq0 : (0 : ℚ) ≤ d / 0.001 := div_nonneg hd0 (by norm_num)
    have hq1 : d / 0.001 < 1 := by
      rw [div_lt_one (by norm_num)]
      have := not_le.mp h3
      linarith
    constructor <;> nlinarith [hq0, hq1]

/-- The round-number component lies in [0, 25] for every level. -/
theorem roundScore_bounds (level : ℚ) :
    0 ≤ (Score.roundNumberScore Score.defaultCfg level).1 ∧
      (Score.roundNumberScore Score.defaultCfg level).1 ≤ 25 := by
  simp only [Score.roundNumberScore, Score.defaultCfg]
  split_ifs with h1 h2 h3 h4 h5
  · constructor <;> norm_num
  · constructor <;> norm_num
  · constructor <;> norm_num
  · constructor <;> norm_num
  · set dist := |level - (pyRound (level / 0.005) : ℚ) * 0.005| with hdist
    have hd0 : (0 : ℚ) ≤ dist := abs_nonneg _
    have hq0 : (0 : ℚ) ≤ dist / 0.0010 := div_nonneg hd0 (by norm_num)
    have hq1 : dist / 0.0010 ≤ 1 := by
      rw [div_le_one (by norm_num)]
      exact h5
    constructor <;> simp only [Prod.fst] <;> nlinarith [hq0, hq1]
  · constructor <;> norm_num

/-- The Fibonacci weight table takes values in [1/2, 1]. -/
theorem fibWeight_bounds (name : String) :
    1/2 ≤ Score.fibWeight name ∧ Score.fibWeight name ≤ 1 := by
  simp only [Score.fibWeight]
  split_ifs <;> norm_num

/-- The running best of the Fibonacci fold stays in [0, 20]. -/
theorem fibBest_bounds (level : ℚ) (fibs : List (String × ℚ)) (best : ℚ × String)
    (hb0 : 0 ≤ best.1) (hb1 : best.1 ≤ 20) :
    0 ≤ (Score.fibBest Score.defaultCfg level fibs best).1 ∧
      (Score.fibBest Score.defaultCfg level fibs best).1 ≤ 20 := by
  induction fibs generalizing best with
  | nil =>
    simp only [Score.fibBest]
    exact ⟨hb0, hb1⟩
  | cons p rest ih =>
    obtain ⟨name, price⟩ := p
    simp only [Score.fibBest, Score.defaultCfg]
    split_ifs with hdist hgt
    · apply ih
      all_goals
        have hw := fibWeight_bounds name
        have hd0 : (0 : ℚ) ≤ |level - price| := abs_nonneg _
        have hq1 : |level - price| / (5 * (1/10000)) ≤ 1 := by
          rw [div_le_one (by norm_num)]
          simpa using hdist
        have hq0 : (0 : ℚ) ≤ |level - price| / (5 * (1/10000)) :=
          div_nonneg hd0 (by norm_num)
        have hfac0 : (0 : ℚ) ≤ 1 - |level - price| / (5 * (1/10000)) := by linarith
        have hwnn : (0 : ℚ) ≤ Score.fibWeight name := by linarith [hw.1]
        have hprod0 : (0 : ℚ) ≤
            Score.fibWeight name * (1 - |level - price| / (5 * (1/10000))) :=
          mul_nonneg hwnn hfac0
        have hprod1 : Score.fibWeight name * (1 - |level - price| / (5 * (1/10000))) ≤ 1 :=
          mul_le_one₀ hw.2 hfac0 (by linarith)
      · nlinarith [hprod0]
      · nlinarith [hprod1]
    · exact ih best hb0 hb1
    · exact ih best hb0 hb1

/-- The Fibonacci component lies in [0, 20] for every level and level table. -/
theorem fibScore_bounds (level : ℚ) (fibs : List (String × ℚ)) :
    0 ≤ (Score.fibScore Score.defaultCfg level fibs).1 ∧
      (Score.fibScore Score.defaultCfg level fibs).1 ≤ 20 := by
  unfold Score.fibScore
  split_ifs
  · norm_num
  · exact fibBest_bounds level fibs (0, "") (by norm_num) (by norm_num)

/-- The DOM component lies in [0, 15] for every database answer, and for every
legal random draw when the database is absent. -/
theorem domScore_bounds (db : Option (ℚ → ℚ)) (r level : ℚ)
    (hr0 : 0 ≤ r) (hr1 : r ≤ 6) :
    0 ≤ Score.domScore Score.defaultCfg db r level ∧
      Score.domScore Score.defaultCfg db r level ≤ 15 := by
  cases db with
  | none =>
    simp only [Score.domScore]
    exact ⟨hr0, by linarith⟩
  | some f =>
    simp only [Score.domScore, Score.defaultCfg]
    set v := f level with hv
    split_ifs with h1 h2 h3
    · norm_num
    · have hq0 : (0 : ℚ) ≤ (v - 1500 * 0.6) / (1500 * 0.4) :=
        div_nonneg (by linarith) (by norm_num)
      have hq1 : (v - 1500 * 0.6) / (1500 * 0.4) < 1 := by
        rw [div_lt_one (by norm_num)]
        have := not_le.mp h1
        linarith
      constructor <;> nlinarith [hq0, hq1]
    · have hq0 : (0 : ℚ) ≤ v / (1500 * 0.6) := div_nonneg (by linarith) (by norm_num)
      have hq1 : v / (1500 * 0.6) < 1 := by
        rw [div_lt_one (by norm_num)]
        have := not_le.mp h2
        linarith
      constructor <;> nlinarith [hq0, hq1]
    · norm_num

/-- The delta component lies in [0, 10] for every delta. -/
theorem deltaScore_bounds (delta : ℚ) :
    0 ≤ Score.deltaScore Score.defaultCfg delta ∧
      Score.deltaScore Score.defaultCfg delta ≤ 10 := by
  simp only [Score.deltaScore, Score.defaultCfg]
  set a := |delta| with ha
  have ha0 : (0 : ℚ) ≤ a := abs_nonneg _
  split_ifs with h1 h2
  · norm_num
  · have hq0 : (0 : ℚ) ≤ (a - 8000 * 0.5) / (8000 * 0.5) :=
      div_nonneg (by linarith) (by norm_num)
    have hq1 : (a - 8000 * 0.5) / (8000 * 0.5) < 1 := by
      rw [div_lt_one (by norm_num)]
      have := not_le.mp h1
      linarith
    constructor <;> nlinarith [hq0, hq1]
  · have hq0 : (0 : ℚ) ≤ a / (8000 * 0.5) := div_nonneg ha0 (by norm_num)
    have hq1 : a / (8000 * 0.5) < 1 := by
      rw [div_lt_one (by norm_num)]
      have := not_le.mp h2
      linarith
    constructor <;> nlinarith [hq0, hq1]

/-- Claim C7: under the default configuration the five components recorded in the
returned breakdown are exactly the component functions of the level and snapshot,
each lies in [0, component_max] (30, 25, 20, 15, 10), and the total score of the
returned `ExecutionZone` is at most 100.  Hypotheses: the snapshot VWAP is a
(nonnegative) price, and the random DOM draw lies in its uniform support
[0, 0.4 × DOM_MAX] = [0, 6] (it is only read when the database is absent). -/
theorem c7_component_bounds (db : Option (ℚ → ℚ)) (r level : ℚ) (md : Score.MarketData)
    (hv : 0 ≤ md.vwap) (hr0 : 0 ≤ r) (hr1 : r ≤ 6) :
    (Score.calculateScore Score.defaultCfg db r level md).score_breakdown =
      [("vwap", Score.vwapScore Score.defaultCfg level md.vwap),
       ("round_number", (Score.roundNumberScore Score.defaultCfg level).1),
       ("fibonacci", (Score.fibScore Score.defaultCfg level md.fib_levels).1),
       ("dom", Score.domScore Score.defaultCfg db r level),
       ("delta", Score.deltaScore Score.defaultCfg md.bid_ask_delta)] ∧
    (0 ≤ Score.vwapScore Score.defaultCfg level md.vwap ∧
      Score.vwapScore Score.defaultCfg level md.vwap ≤ 30) ∧
    (0 ≤ (Score.roundNumberScore Score.defaultCfg level).1 ∧
      (Score.roundNumberScore Score.defaultCfg level).1 ≤ 25) ∧
    (0 ≤ (Score.fibScore Score.defaultCfg level md.fib_levels).1 ∧
      (Score.fibScore Score.defaultCfg level md.fib_levels).1 ≤ 20) ∧
    (0 ≤ Score.domScore Score.defaultCfg db r level ∧
      Score.domScore Score.defaultCfg db r level ≤ 15) ∧
    (0 ≤ Score.deltaScore Score.defaultCfg md.bid_ask_delta ∧
      Score.deltaScore Score.defaultCfg md.bid_ask_delta ≤ 10) ∧
    (Score.calculateScore Score.defaultCfg db r level md).score ≤ 100 := by
  refine ⟨rfl, vwapScore_bounds level md.vwap hv, roundScore_bounds level,
    fibScore_bounds level md.fib_levels, domScore_bounds db r level hr0 hr1,
    deltaScore_bounds md.bid_ask_delta, ?_⟩
  exact min_le_right _ _

/-- Witness for `c7_component_bounds` on `md10` without a database, draw 0. -/
theorem c7_component_bounds_witness :
    (Score.calculateScore Score.defaultCfg none 0 1 md10).score_breakdown =
      [("vwap", Score.vwapScore Score.defaultCfg 1 md10.vwap),
       ("round_number", (Score.roundNumberScore Score.defaultCfg 1).1),
       ("fibonacci", (Score.fibScore Score.defaultCfg 1 md10.fib_levels).1),
       ("dom", Score.domScore Score.defaultCfg none 0 1),
       ("delta", Score.deltaScore Score.defaultCfg md10.bid_ask_delta)] ∧
    (0 ≤ Score.vwapScore Score.defaultCfg 1 md10.vwap ∧
      Score.vwapScore Score.defaultCfg 1 md10.vwap ≤ 30) ∧
    (0 ≤ (Score.roundNumberScore Score.defaultCfg 1).1 ∧
      (Score.roundNumberScore Score.defaultCfg 1).1 ≤ 25) ∧
    (0 ≤ (Score.fibScore Score.defaultCfg 1 md10.fib_levels).1 ∧
      (Score.fibScore Score.defaultCfg 1 md10.fib_levels).1 ≤ 20) ∧
    (0 ≤ Score.domScore Score.defaultCfg none 0 1 ∧
      Score.domScore Score.defaultCfg none 0 1 ≤ 15) ∧
    (0 ≤ Score.deltaScore Score.defaultCfg md10.bid_ask_delta ∧
      Score.deltaScore Score.defaultCfg md10.bid_ask_delta ≤ 10) ∧
    (Score.calculateScore Score.defaultCfg none 0 1 md10).score ≤ 100 :=
  c7_component_bounds none 0 1 md10 (by decide) (by decide) (by decide)

/-- Membership in a descending insertion. -/
theorem mem_insertZone {a z : Score.ExecutionZone} {l : List Score.ExecutionZone} :
    a ∈ Score.insertZone z l ↔ a = z ∨ a ∈ l := by
  induction l with
  | nil => simp [Score.insertZone]
  | cons w ws ih =>
    simp only [Score.insertZone]
    split_ifs
    · simp [List.mem_cons]
    · simp only [List.mem_cons, ih]
      tauto

/-- Descending insertion preserves the non-increasing score order. -/
theorem pairwise_insertZone {z : Score.ExecutionZone} {l : List Score.ExecutionZone}
    (hl : l.Pairwise (fun a b => b.score ≤ a.score)) :
    (Score.insertZone z l).Pairwise (fun a b => b.score ≤ a.score) := by
  induction l with
  | nil => simp [Score.insertZone]
  | cons w ws ih =>
    rcases List.pairwise_cons.mp hl with ⟨hw, hws⟩
    simp only [Score.insertZone]
    split_ifs with hgt
    · refine List.pairwise_cons.mpr ⟨?_, hl⟩
      intro b hb
      rcases List.mem_cons.mp hb with rfl | hb'
      · exact le_of_lt hgt
      · exact (hw b hb').trans (le_of_lt hgt)
    · refine List.pairwise_cons.mpr ⟨?_, ih hws⟩
      intro b hb
      rcases mem_insertZone.mp hb with rfl | hb'
      · exact le_of_not_lt hgt
      · exact hw b hb'

/-- Membership in the descending sort. -/
theorem mem_sortZonesDesc {a : Score.ExecutionZone} {l : List Score.ExecutionZone} :
    a ∈ Score.sortZonesDesc l ↔ a ∈ l := by
  induction l with
  | nil => simp [Score.sortZonesDesc]
  | cons w ws ih =>
    simp only [Score.sortZonesDesc, mem_insertZone, List.mem_cons, ih]

/-- The descending sort produces a non-increasing score order. -/
theorem pairwise_sortZonesDesc (l : List Score.ExecutionZone) :
    (Score.sortZonesDesc l).Pairwise (fun a b => b.score ≤ a.score) := by
  induction l with
  | nil => simp [Score.sortZonesDesc]
  | cons w ws ih => exact pairwise_insertZone ih

/-- Every zone kept by `scan_all_zones` passed the score-50 filter. -/
theorem scanAllZones_mem_score {cfg : Score.Cfg} {db : Option (ℚ → ℚ)} {draws : ℚ → ℚ}
    {md : Score.MarketData} {n : ℕ} {z : Score.ExecutionZone}
    (h : z ∈ Score.scanAllZones cfg db draws md n) : 50 ≤ z.score := by
  unfold Score.scanAllZones at h
  have h' := mem_sortZonesDesc.mp h
  have := (List.mem_filter.mp h').2
  exact of_decide_eq_true this

/-- A best zone answer passed both the scan filter and the caller threshold. -/
theorem getBestZone_eq_some {cfg : Score.Cfg} {db : Option (ℚ → ℚ)} {draws : ℚ → ℚ}
    {md : Score.MarketData} {min_score : ℚ} {z : Score.ExecutionZone}
    (h : Score.getBestZone cfg db draws md min_score = some z) :
    min_score ≤ z.score ∧ z ∈ Score.scanAllZones cfg db draws md 20 := by
  unfold Score.getBestZone at h
  split at h
  · exact absurd h (by simp)
  · rename_i z' rest heq
    by_cases hge : z'.score ≥ min_score
    · rw [if_pos hge] at h
      cases h
      exact ⟨hge, by rw [heq]; exact List.mem_cons_self _ _⟩
    · rw [if_neg hge] at h
      exact absurd h (by simp)

/-- Claim C10: every zone returned by `scan_all_zones` has score at least 50; the
returned list is in non-increasing score order; and any zone returned by
`get_best_zone` has score at least 50 — so when every level in the window scores
below 50 the query returns no zone — as well as at least the caller threshold. -/
theorem c10_scan_floor_sorted (cfg : Score.Cfg) (db : Option (ℚ → ℚ)) (draws : ℚ → ℚ)
    (md : Score.MarketData) (min_score : ℚ) (z : Score.ExecutionZone) :
    (z ∈ Score.scanAllZones cfg db draws md 20 → 50 ≤ z.score) ∧
    (Score.scanAllZones cfg db draws md 20).Pairwise (fun a b => b.score ≤ a.score) ∧
    (Score.getBestZone cfg db draws md min_score = some z →
      50 ≤ z.score ∧ min_score ≤ z.score) := by
  refine ⟨fun h => scanAllZones_mem_score h, pairwise_sortZonesDesc _, fun h => ?_⟩
  obtain ⟨hmin, hmem⟩ := getBestZone_eq_some h
  exact ⟨scanAllZones_mem_score hmem, hmin⟩

/-- Witness for `c10_scan_floor_sorted` on `md10`, threshold 50, where the best
zone is `c10zone` with score 85. -/
theorem c10_scan_floor_sorted_witness :
    (c10zone ∈ Score.scanAllZones Score.defaultCfg none draws0 md10 20 →
      50 ≤ c10zone.score) ∧
    (Score.scanAllZones Score.defaultCfg none draws0 md10 20).Pairwise
      (fun a b => b.score ≤ a.score) ∧
    (50 ≤ c10zone.score ∧ (50 : ℚ) ≤ c10zone.score) :=
  have h := c10_scan_floor_sorted Score.defaultCfg none draws0 md10 50 c10zone
  ⟨h.1, h.2.1, h.2.2 (by decide)⟩

/-- When the DXY symbol is unavailable the correlation check is confirmed-neutral. -/
theorem checkCorrelation_unavailable (direction : String)
    (dxyBars : Option (List (ℚ × ℚ))) :
    Sig.checkCorrelation true direction false dxyBars =
      ⟨true, "UNAVAILABLE"⟩ := by
  simp [Sig.checkCorrelation]

/-- When the DXY bar query returns nothing the correlation check is
confirmed-neutral. -/
theorem checkCorrelation_no_bars (direction : String) :
    Sig.checkCorrelation true direction true none = ⟨true, "NO_DATA"⟩ := by
  simp [Sig.checkCorrelation]

/-- When the DXY bar query returns fewer than 5 bars the correlation check is
confirmed-neutral. -/
theorem checkCorrelation_short_bars (direction : String) (bars : List (ℚ × ℚ))
    (h : bars.length < 5) :
    Sig.checkCorrelation true direction true (some bars) = ⟨true, "NO_DATA"⟩ := by
  simp [Sig.checkCorrelation, h]

/-- Claim C3, counterexample.  In `md3`/`env3` the DXY symbol is unavailable, the
best zone scores 100, and the emitted signal's confidence is 105 = 100 + 5: the
correlation step applies the +5 confirmation bonus on unavailability rather than
leaving the confidence equal to the raw zone score. -/
theorem c3_counterexample :
    (Sig.scanAndGenerate Sig.defaultSigCfg Score.defaultCfg db1500 draws0 env3 md3).map
        Sig.TradeSignal.confidence = some 105 ∧
    (Score.getBestZone Score.defaultCfg db1500 draws0 md3 Sig.defaultSigCfg.min_score).map
        Score.ExecutionZone.score = some 100 ∧
    (105 : ℚ) ≠ 100 := by
  decide

/-- Claim C3, amended: when the secondary instrument is unavailable, or it is
selectable but its bar query returns no usable data (a `None` reply or fewer than
5 bars), the correlation result is treated as confirmed, so the emitted signal's
confidence is the raw zone score plus the +5 confirmation bonus (not the raw score
itself, and not the −15 conflict penalty), and neither condition alone ever causes
the signal to be rejected; the recorded verdict is `UNAVAILABLE` for the missing
symbol and `NO_DATA` otherwise. -/
theorem c3_correlation_unavailable_amended (scfg : Sig.SigCfg) (cfg : Score.Cfg)
    (db : Option (ℚ → ℚ)) (draws : ℚ → ℚ) (env : Sig.Env) (md : Score.MarketData)
    (z : Score.ExecutionZone)
    (hb : Sig.isBlackout env.blackouts env.nowMinutes = false)
    (hsess : Sig.isActiveSession env.activeSessionsOnly (env.nowMinutes / 60) = true)
    (hsh : Sig.checkStopHunt scfg env.nowMinutes env.yesterdayBar md.bid = none)
    (hen : scfg.correlation_enabled = true)
    (hneut : env.dxyAvailable = false ∨ env.dxyBars = none ∨
      ∃ bars, env.dxyBars = some bars ∧ bars.length < 5)
    (hz : Score.getBestZone cfg db draws md scfg.min_score = some z)
    (hdist : ¬ (|z.price - md.bid| > (scfg.scan_range_pips : ℚ) * scfg.pip_value)) :
    Sig.scanAndGenerate scfg cfg db draws env md =
      some ⟨z.direction, z, z.trigger_price, z.stop_loss, 1/100, z.score + 5, true,
        if env.dxyAvailable then "NO_DATA" else "UNAVAILABLE"⟩ := by
  have hmin : scfg.min_score ≤ z.score := (getBestZone_eq_some hz).1
  have hcorr : Sig.checkCorrelation scfg.correlation_enabled z.direction env.dxyAvailable
      env.dxyBars =
        ⟨true, if env.dxyAvailable then "NO_DATA" else "UNAVAILABLE"⟩ := by
    rw [hen]
    cases hav : env.dxyAvailable with
    | false =>
      simp only [Bool.false_eq_true, if_false]
      exact checkCorrelation_unavailable z.direction env.dxyBars
    | true =>
      simp only [if_true]
      rcases hneut with hneut | hneut | ⟨bars, hbars, hlen⟩
      · exact absurd hav (by rw [hneut]; exact Bool.false_ne_true)
      · rw [hneut]
        exact checkCorrelation_no_bars z.direction
      · rw [hbars]
        exact checkCorrelation_short_bars z.direction bars hlen
  have hnr : ¬ (z.score + 5 < scfg.min_score) := by
    push_neg
    linarith
  unfold Sig.scanAndGenerate
  rw [hb, hsess]
  simp only [Bool.false_eq_true, if_false, not_true, if_true, hsh, hz, hcorr]
  rw [if_neg hdist]
  simp only [if_neg hnr]

/-- Witness for `c3_correlation_unavailable_amended`, applied twice on `md3` (best
zone `c3zone`, score 100, emitted confidence 105): once with the DXY symbol
unavailable (`env3`), once with the symbol selectable but only one bar of data
(`env3b`). -/
theorem c3_correlation_unavailable_amended_witness :
    (Sig.scanAndGenerate Sig.defaultSigCfg Score.defaultCfg db1500 draws0 env3 md3 =
      some ⟨c3zone.direction, c3zone, c3zone.trigger_price, c3zone.stop_loss, 1/100,
        c3zone.score + 5, true, "UNAVAILABLE"⟩) ∧
    (Sig.scanAndGenerate Sig.defaultSigCfg Score.defaultCfg db1500 draws0 env3b md3 =
      some ⟨c3zone.direction, c3zone, c3zone.trigger_price, c3zone.stop_loss, 1/100,
        c3zone.score + 5, true, "NO_DATA"⟩) :=
  ⟨c3_correlation_unavailable_amended Sig.defaultSigCfg Score.defaultCfg db1500 draws0
      env3 md3 c3zone (by decide) (by decide) (by decide) (by decide) (Or.inl rfl)
      (by decide) (by decide),
   c3_correlation_unavailable_amended Sig.defaultSigCfg Score.defaultCfg db1500 draws0
      env3b md3 c3zone (by decide) (by decide) (by decide) (by decide)
      (Or.inr (Or.inr ⟨[(1, 1)], rfl, by decide⟩)) (by decide) (by decide)⟩

end PropTrade
